import Mathlib

/-!
Verification of the startup/lifecycle orchestrator and collection-read
pipeline of the API server (src/src/app.js, src/src/api/courses/read.js,
src/src/api/artists/_validates/update.validate.js).

The startup sequence of app.js is embedded as the deterministic trace of
observable events a run produces, parameterised by the profile name, the
number of configured databases, and whether the datastore connect promise
resolves or rejects.
-/

/-- Observable events of one startup run of app.js. -/
inductive Event where
  /-- security.makeSecure(app, ...) at app.js line 157. -/
  | securityHeaders
  /-- routines._setupRoutines() at app.js line 165. -/
  | setupRoutines
  /-- the server socket is bound and begins accepting connections
      (server.listen at line 163 succeeded; the listen callback fires after). -/
  | bind
  /-- _setupCors: write the x-powered-by header and cors.setCors (lines 85-88). -/
  | setupCors
  /-- _setupValidator: bind the locale catalog into the validator (lines 56-60). -/
  | setupValidator
  /-- database.setMongooseLocale (line 106). -/
  | setMongooseLocale
  /-- database.connectDatabases is invoked (lines 108-112). -/
  | connectAttempt
  /-- the diagnostic note of the zero-database branch reaches the console (line 121). -/
  | logNoDatabase
  /-- the status lines of _listenSuccess reach the console (lines 136-143). -/
  | logStatus
  /-- _setupRouters: routers.syncRouters(app) (lines 66-68). -/
  | registerRoutes
  /-- the connect rejection is rethrown out of the catch handler (line 117). -/
  | faultRaised
deriving DecidableEq, Repr

/-- Console output of _appLog (app.js lines 75-79): suppressed when the
profile name is test, a single event otherwise. -/
def appLogOut (envName : String) (e : Event) : List Event :=
  if envName = "test" then [] else [e]

/-- The event trace of one run of app.js, in program order.  The top level
applies the security headers, starts the routines and binds the listening
socket; the listen-success callback then runs _setupDatabase (cors, validator,
then either the connect branch or the zero-database branch).  In the connect
branch the status lines print synchronously before the promise settles, so
registerRoutes (resp. faultRaised) comes after logStatus; in the
zero-database branch the routers are mounted synchronously before the status
lines. -/
def startupTrace (envName : String) (dbCount : Nat) (connectOk : Bool) :
    List Event :=
  [Event.securityHeaders, Event.setupRoutines, Event.bind,
   Event.setupCors, Event.setupValidator] ++
  (if dbCount = 0 then
    appLogOut envName Event.logNoDatabase ++ [Event.registerRoutes] ++
      appLogOut envName Event.logStatus
  else
    [Event.setMongooseLocale, Event.connectAttempt] ++
      appLogOut envName Event.logStatus ++
      (if connectOk then [Event.registerRoutes] else [Event.faultRaised]))

/-!
The Environment configuration snapshot (app.js lines 10-12) and the cors
setup stage (_setupCors, lines 85-88), which assigns
environment.server.cors[x-powered-by] = environment.app.name before calling
cors.setCors.  The JavaScript property assignment is embedded as an
association-list update on the cors header map.
-/

/-- The app section of the Environment snapshot. -/
structure AppSection where
  name : String
  locale : String
  timezone : String
deriving DecidableEq, Repr

/-- The server section of the Environment snapshot; cors is the header map
mutated by _setupCors, ssl stands for the ssl material handed to the
SecureTransport collaborator. -/
structure ServerSection where
  host : String
  port : Nat
  secure : Bool
  cors : List (String × String)
  ssl : String
deriving DecidableEq, Repr

/-- The Environment configuration snapshot resolved once at process start
(config.getEnv() at app.js line 12): app, server and the database mapping. -/
structure Environment where
  app : AppSection
  server : ServerSection
  databases : List (String × String)
deriving DecidableEq, Repr

/-- JavaScript property assignment obj[k] = v on a header map embedded as an
association list: overwrite the first binding of k, or append one. -/
def setHeader : List (String × String) → String → String → List (String × String)
  | [], k, v => [(k, v)]
  | (k0, v0) :: rest, k, v =>
      if k0 = k then (k, v) :: rest else (k0, v0) :: setHeader rest k v

/-- _setupCors (app.js lines 85-88): writes the x-powered-by header, set to
environment.app.name, into environment.server.cors.  Embedded as the
transformation it applies to the Environment value. -/
def setupCorsStage (env : Environment) : Environment :=
  { env with
      server := { env.server with
        cors := setHeader env.server.cors "x-powered-by" env.app.name } }

/-- Read a header from the cors header map: the value of its first
binding. -/
def lookupHeader : List (String × String) → String → Option String
  | [], _ => none
  | (k0, v0) :: rest, k => if k0 = k then some v0 else lookupHeader rest k

/-- A concrete Environment snapshot used to exhibit the cors mutation. -/
def sampleEnv : Environment :=
  { app := { name := "MyAPI", locale := "en", timezone := "UTC" }
    server := { host := "0.0.0.0", port := 3000, secure := false
                cors := [("origin", "*")], ssl := "material" }
    databases := [] }

/-!
The process-wide uncaught-fault handler (app.js lines 44-47):
under the development profile the error is rethrown, under every other
profile error.stack is passed to logsManager.log and the process continues.
-/

/-- An uncaught fault: its message and its diagnostic stack trace. -/
structure Fault where
  message : String
  stack : String
deriving DecidableEq, Repr

/-- What the uncaught-fault handler does with a fault. -/
inductive FaultAction where
  /-- the fault is rethrown, terminating the process. -/
  | rethrow
  /-- the given trace text is passed to the logging collaborator and the
      process continues running. -/
  | logged (traceText : String)
deriving DecidableEq, Repr

/-- The uncaughtException listener of app.js lines 44-47. -/
def uncaughtHandler (envName : String) (error : Fault) : FaultAction :=
  if envName = "development" then FaultAction.rethrow
  else FaultAction.logged error.stack

/-!
The paginated-query engine.  The mongoose paginate plugin itself lives in the
core modules, which are not part of the provided sources; only its caller
(src/src/api/courses/read.js) is.  The engine is therefore modelled from the
specification, keeping the field names the caller reads (result.data and
result.paginate, the items and meta of the spec).
-/

/-- Ceiling division on Nat: the least n with a less or equal n times b. -/
def ceilDiv (a b : Nat) : Nat := (a + b - 1) / b

/-- Page metadata of a PageResult: totalCount, page, limit, pageCount. -/
structure PageMeta where
  totalCount : Nat
  page : Nat
  limit : Nat
  pageCount : Nat
deriving DecidableEq, Repr

/-- A PageResult: the bounded item sequence (field data, as read.js reads it)
and the page metadata (field paginate). -/
structure PageResult (α : Type) where
  data : List α
  paginate : PageMeta
deriving DecidableEq, Repr

/-- The Datastore collaborator: whether it is reachable, and the record
collection its query primitives run against. -/
structure Datastore (α : Type) where
  reachable : Bool
  records : List α
deriving DecidableEq, Repr

/-- A QueryError carrying the diagnostic stack text of the underlying
cause. -/
structure QueryError where
  stack : String
deriving DecidableEq, Repr

/-- Modelled from the spec: the result shaping of the paginate operation
(section 4.2); the plugin source is not under the provided files.  It
computes skip = (page - 1) * limit, totalCount = countMatching(filter) and
items = fetch(filter, skip, limit) over the record collection, and returns
the PageResult with pageCount = ceil(totalCount / limit). -/
def paginateResult (records : List α) (filter : α → Bool) (limit page : Nat) :
    PageResult α :=
  { data := ((records.filter filter).drop ((page - 1) * limit)).take limit
    paginate :=
      { totalCount := (records.filter filter).length
        page := page
        limit := limit
        pageCount := ceilDiv (records.filter filter).length limit } }

/-- Modelled from the spec: the paginate operation of the PaginationEngine
(section 4.2), run against the Datastore collaborator; a datastore that is
unreachable makes it fail with a QueryError carrying the underlying cause. -/
def paginate (ds : Datastore α) (filter : α → Bool) (limit page : Nat) :
    Except QueryError (PageResult α) :=
  if ds.reachable then
    Except.ok (paginateResult ds.records filter limit page)
  else
    Except.error { stack := "MongoError: datastore unreachable" }

/-!
The collection-read handler listCourses (src/src/api/courses/read.js):
on success one OK envelope with the items as data and the page metadata as
meta, on failure one INTERNAL_SERVER_ERROR envelope whose data is the
diagnostic stack text of the cause.
-/

/-- The data payload of a response envelope: a record sequence, or the
diagnostic text of an error. -/
inductive Payload (α : Type) where
  | records (items : List α)
  | diagnostic (text : String)
deriving DecidableEq, Repr

/-- A response envelope: status code, data and optional meta. -/
structure Envelope (α : Type) where
  status : Nat
  data : Payload α
  meta : Option PageMeta
deriving DecidableEq, Repr

/-- The OK status code of the Response core vocabulary. -/
def okCode : Nat := 200

/-- The INTERNAL_SERVER_ERROR status code of the Response core vocabulary. -/
def internalServerErrorCode : Nat := 500

/-- The UNPROCESSABLE_ENTITY status code of the Response core vocabulary. -/
def unprocessableEntityCode : Nat := 422

/-- listCourses (read.js lines 5-11): run Courses.paginate and translate its
outcome into the envelopes written to the response channel, returned here as
the list of send calls the handler performs. -/
def listCourses (ds : Datastore α) (filter : α → Bool) (limit page : Nat) :
    List (Envelope α) :=
  match paginate ds filter limit page with
  | Except.ok result =>
      [{ status := okCode, data := Payload.records result.data
         meta := some result.paginate }]
  | Except.error err =>
      [{ status := internalServerErrorCode, data := Payload.diagnostic err.stack
         meta := none }]

/-!
The artist update validation middleware
(src/src/api/artists/_validates/update.validate.js): a Joi object schema
with three optional fields; on failure the middleware sends the error
details with UNPROCESSABLE_ENTITY, otherwise it calls next().
-/

/-- A request body for the artist update route: each schema field may be
absent. -/
structure UpdateBody where
  name : Option String
  genres : Option (List String)
  originYear : Option Int
deriving DecidableEq, Repr

/-- Constraint of the name field: Joi.string().max(50).  A Joi string
rejects the empty string by default (the schema has no allow of it), so the
value must be non-empty and of length at most 50. -/
def nameOk (s : String) : Bool := !s.isEmpty && s.length ≤ 50

/-- Constraint of the genres field: Joi.array().items(Joi.string()).min(1).
The array needs at least one element, and each item must itself satisfy
Joi.string(), which rejects the empty string by default. -/
def genresOk (g : List String) : Bool :=
  1 ≤ g.length && g.all (fun s => !s.isEmpty)

/-- Constraint of the originYear field:
Joi.number().min(1500).max(new Date().getFullYear()), parameterised by the
current year. -/
def originYearOk (currentYear : Int) (y : Int) : Bool :=
  1500 ≤ y && y ≤ currentYear

/-- Outcome of the validation middleware: next() is called, or one 422
envelope is sent carrying the details (here the names of the failing
fields). -/
inductive ValidateOutcome where
  | next
  | unprocessable (details : List String)
deriving DecidableEq, Repr

/-- The artist update validator (update.validate.js lines 4-20): validate
req.body against the schema; if validation produced error details, send them
with UNPROCESSABLE_ENTITY, else call next(). -/
def updateValidate (currentYear : Int) (body : UpdateBody) : ValidateOutcome :=
  let details :=
    (match body.name with
     | none => []
     | some s => if nameOk s then [] else ["name"]) ++
    (match body.genres with
     | none => []
     | some g => if genresOk g then [] else ["genres"]) ++
    (match body.originYear with
     | none => []
     | some y => if originYearOk currentYear y then [] else ["originYear"])
  if details.isEmpty then ValidateOutcome.next
  else ValidateOutcome.unprocessable details

/-!
Arithmetic facts about ceiling division, shared by the pagination
theorems.
-/

/-- Ceiling division of zero is zero. -/
theorem ceilDiv_zero_left (b : Nat) : ceilDiv 0 b = 0 := by
  unfold ceilDiv
  cases b with
  | zero => rfl
  | succ n => exact Nat.div_eq_of_lt (by omega)

/-- Ceiling division rounds up: b copies of ceilDiv a b cover a. -/
theorem le_ceilDiv_mul (t b : Nat) (hb : 0 < b) : t ≤ ceilDiv t b * b := by
  by_contra hc
  push_neg at hc
  have he : (ceilDiv t b + 1) * b = ceilDiv t b * b + b := by ring
  have h1 : (ceilDiv t b + 1) * b ≤ t + b - 1 := by omega
  have h2 : ceilDiv t b + 1 ≤ (t + b - 1) / b := (Nat.le_div_iff_mul_le hb).2 h1
  have h3 : (t + b - 1) / b = ceilDiv t b := rfl
  omega

/-- Ceiling division is tight: one page fewer than ceilDiv t b does not
cover a positive t. -/
theorem ceilDiv_pred_mul_lt (t b : Nat) (ht : 0 < t) (hb : 0 < b) :
    (ceilDiv t b - 1) * b < t := by
  have h1 : ceilDiv t b * b ≤ t + b - 1 := Nat.div_mul_le_self (t + b - 1) b
  cases hq : ceilDiv t b with
  | zero => simpa using ht
  | succ q =>
      rw [hq] at h1
      have he : (q + 1) * b = q * b + b := by ring
      have hgoal : (q + 1 - 1) * b = q * b := by simp
      rw [hgoal]
      omega

/-- An ok outcome of paginate is the shaped result over the datastore
records. -/
theorem paginate_ok_eq (ds : Datastore α) (filter : α → Bool)
    (limit page : Nat) (r : PageResult α)
    (hr : paginate ds filter limit page = Except.ok r) :
    r = paginateResult ds.records filter limit page := by
  rw [paginate] at hr
  split at hr
  · injection hr with h
    exact h.symm
  · exact Except.noConfusion hr

/-- C3: for every successful paginate call with limit at least 1 and page at
least 1, the returned PageResult has at most limit items, its pageCount
equals the ceiling of totalCount over limit (witnessed both by the ceilDiv
formula and by the covering bounds totalCount less or equal pageCount times
limit, with one page fewer not covering a positive totalCount), and
pageCount is 0 when totalCount is 0. -/
theorem paginate_bounds (ds : Datastore α) (filter : α → Bool)
    (limit page : Nat) (hl : 1 ≤ limit) (_hp : 1 ≤ page) (r : PageResult α)
    (hr : paginate ds filter limit page = Except.ok r) :
    r.data.length ≤ limit ∧
    r.paginate.pageCount = ceilDiv r.paginate.totalCount limit ∧
    r.paginate.limit = limit ∧
    r.paginate.page = page ∧
    r.paginate.totalCount ≤ r.paginate.pageCount * limit ∧
    (0 < r.paginate.totalCount →
      (r.paginate.pageCount - 1) * limit < r.paginate.totalCount) ∧
    (r.paginate.totalCount = 0 → r.paginate.pageCount = 0) := by
  have hre := paginate_ok_eq ds filter limit page r hr
  subst hre
  refine ⟨?_, rfl, rfl, rfl, ?_, ?_, ?_⟩
  · show ((((ds.records.filter filter).drop ((page - 1) * limit)).take
      limit)).length ≤ limit
    rw [List.length_take]
    exact Nat.min_le_left _ _
  · exact le_ceilDiv_mul _ _ hl
  · intro ht
    exact ceilDiv_pred_mul_lt _ _ ht hl
  · intro ht
    show ceilDiv (ds.records.filter filter).length limit = 0
    have h0 : (ds.records.filter filter).length = 0 := ht
    rw [h0]
    exact ceilDiv_zero_left limit

/-- Witness for C3 at a reachable three-record datastore, limit 2, page 1. -/
theorem paginate_bounds_witness :
    (paginateResult [1, 2, 3] (fun _ => true) 2 1).data.length ≤ 2 ∧
    (paginateResult [1, 2, 3] (fun _ => true) 2 1).paginate.pageCount =
      ceilDiv (paginateResult [1, 2, 3] (fun _ => true) 2 1).paginate.totalCount 2 ∧
    (paginateResult [1, 2, 3] (fun _ => true) 2 1).paginate.limit = 2 ∧
    (paginateResult [1, 2, 3] (fun _ => true) 2 1).paginate.page = 1 ∧
    (paginateResult [1, 2, 3] (fun _ => true) 2 1).paginate.totalCount ≤
      (paginateResult [1, 2, 3] (fun _ => true) 2 1).paginate.pageCount * 2 ∧
    (0 < (paginateResult [1, 2, 3] (fun _ => true) 2 1).paginate.totalCount →
      ((paginateResult [1, 2, 3] (fun _ => true) 2 1).paginate.pageCount - 1) * 2 <
        (paginateResult [1, 2, 3] (fun _ => true) 2 1).paginate.totalCount) ∧
    ((paginateResult [1, 2, 3] (fun _ => true) 2 1).paginate.totalCount = 0 →
      (paginateResult [1, 2, 3] (fun _ => true) 2 1).paginate.pageCount = 0) :=
  paginate_bounds (Datastore.mk true [1, 2, 3]) (fun _ => true) 2 1
    (by decide) (by decide) _ rfl

/-- C4: a paginate call on a reachable datastore whose page lies beyond the
last page of a nonempty match set succeeds (returns ok, not a fault) with an
empty items sequence. -/
theorem paginate_page_overflow (ds : Datastore α) (filter : α → Bool)
    (limit page : Nat) (hl : 1 ≤ limit) (hds : ds.reachable = true)
    (_ht : 0 < (ds.records.filter filter).length)
    (hp : ceilDiv (ds.records.filter filter).length limit < page) :
    paginate ds filter limit page =
      Except.ok
        { data := []
          paginate :=
            { totalCount := (ds.records.filter filter).length
              page := page
              limit := limit
              pageCount := ceilDiv (ds.records.filter filter).length limit } } := by
  have hle : ceilDiv (ds.records.filter filter).length limit ≤ page - 1 := by
    omega
  have h2 : ceilDiv (ds.records.filter filter).length limit * limit ≤
      (page - 1) * limit := Nat.mul_le_mul_right limit hle
  have h3 : (ds.records.filter filter).length ≤ (page - 1) * limit :=
    le_trans (le_ceilDiv_mul _ _ hl) h2
  have h4 : (ds.records.filter filter).drop ((page - 1) * limit) = [] :=
    List.drop_eq_nil_of_le h3
  rw [paginate, if_pos hds, paginateResult, h4, List.take_nil]

/-- Witness for C4: three matching records, limit 2, page 5 is beyond the
last page, yet the call returns ok with no items. -/
theorem paginate_page_overflow_witness :
    paginate (Datastore.mk true [1, 2, 3]) (fun _ => true) 2 5 =
      Except.ok
        { data := ([] : List Nat)
          paginate :=
            { totalCount := 3, page := 5, limit := 2, pageCount := 2 } } :=
  paginate_page_overflow (Datastore.mk true [1, 2, 3]) (fun _ => true) 2 5
    (by decide) rfl (by decide) (by decide)

/-- C9: for every collection-read request, listCourses performs exactly one
send; when the pagination query fails the single envelope is
INTERNAL_SERVER_ERROR with the diagnostic stack text of the cause as data,
and when it succeeds the single envelope is OK with the items as data and
the page metadata as meta.  The engine itself contributes no envelope: the
full count of sends of the pipeline is one in both cases. -/
theorem listCourses_envelope (ds : Datastore α) (filter : α → Bool)
    (limit page : Nat) :
    (listCourses ds filter limit page).length = 1 ∧
    (∀ err : QueryError, paginate ds filter limit page = Except.error err →
      listCourses ds filter limit page =
        [{ status := internalServerErrorCode
           data := Payload.diagnostic err.stack
           meta := none }]) ∧
    (∀ r : PageResult α, paginate ds filter limit page = Except.ok r →
      listCourses ds filter limit page =
        [{ status := okCode
           data := Payload.records r.data
           meta := some r.paginate }]) := by
  cases h : paginate ds filter limit page with
  | ok r =>
      refine ⟨by simp [listCourses, h], ?_, ?_⟩
      · intro err herr
        exact Except.noConfusion herr
      · intro r2 hr2
        injection hr2 with h2
        subst h2
        simp [listCourses, h]
  | error e =>
      refine ⟨by simp [listCourses, h], ?_, ?_⟩
      · intro err herr
        injection herr with h2
        subst h2
        simp [listCourses, h]
      · intro r2 hr2
        exact Except.noConfusion hr2

/-- Witness for C9 at an unreachable datastore: the single envelope is the
500-class one carrying the diagnostic text. -/
theorem listCourses_envelope_witness :
    listCourses (Datastore.mk false ([] : List Nat)) (fun _ => true) 2 1 =
      [{ status := internalServerErrorCode
         data := Payload.diagnostic "MongoError: datastore unreachable"
         meta := none }] :=
  (listCourses_envelope (Datastore.mk false ([] : List Nat))
      (fun _ => true) 2 1).2.1
    (QueryError.mk "MongoError: datastore unreachable") rfl

/-- C5: the process-wide uncaught-fault handler rethrows under the
development profile (terminating the process) and, under every other
profile, passes the diagnostic stack trace of the fault to the logging
collaborator and lets the process continue. -/
theorem uncaughtHandler_policy (envName : String) (error : Fault) :
    (envName = "development" →
      uncaughtHandler envName error = FaultAction.rethrow) ∧
    (envName ≠ "development" →
      uncaughtHandler envName error = FaultAction.logged error.stack) := by
  constructor
  · intro h
    simp [uncaughtHandler, h]
  · intro h
    simp [uncaughtHandler, h]

/-- Witness for C5 at the development and production profiles. -/
theorem uncaughtHandler_policy_witness :
    uncaughtHandler "development" (Fault.mk "boom" "trace text") =
      FaultAction.rethrow ∧
    uncaughtHandler "production" (Fault.mk "boom" "trace text") =
      FaultAction.logged "trace text" :=
  ⟨(uncaughtHandler_policy "development" (Fault.mk "boom" "trace text")).1 rfl,
   (uncaughtHandler_policy "production" (Fault.mk "boom" "trace text")).2
     (by decide)⟩

/-!
Lemmas about the cors header-map update, shared by the environment
theorems.
-/

/-- After setHeader, the written key reads back the written value. -/
theorem lookupHeader_setHeader_self (l : List (String × String))
    (k v : String) : lookupHeader (setHeader l k v) k = some v := by
  induction l with
  | nil => simp [setHeader, lookupHeader]
  | cons hd tl ih =>
      obtain ⟨k0, v0⟩ := hd
      by_cases hk : k0 = k
      · simp [setHeader, hk, lookupHeader]
      · simp [setHeader, hk, lookupHeader, ih]

/-- setHeader leaves every other key unchanged. -/
theorem lookupHeader_setHeader_ne (l : List (String × String))
    (k v j : String) (h : j ≠ k) :
    lookupHeader (setHeader l k v) j = lookupHeader l j := by
  have hkj : ¬ k = j := fun hh => h hh.symm
  induction l with
  | nil =>
      simp [setHeader, lookupHeader, hkj]
  | cons hd tl ih =>
      obtain ⟨k0, v0⟩ := hd
      by_cases hk : k0 = k
      · subst hk
        simp [setHeader, lookupHeader, hkj]
      · simp [setHeader, hk, lookupHeader, ih]

/-- C6 counterexample: the cors setup stage of startup does mutate the
Environment snapshot, so the run shown here violates the read-only claim. -/
theorem setupCors_mutates_cex : setupCorsStage sampleEnv ≠ sampleEnv := by
  decide

/-- C6 amended: once the orchestrator runs, the only mutation of the
Environment snapshot is the cors setup stage writing the x-powered-by
header (set to app.name) into server.cors; every other field of the
snapshot and every other cors header is left unchanged. -/
theorem environment_mutation_amended (env : Environment) :
    (setupCorsStage env).app = env.app ∧
    (setupCorsStage env).server.host = env.server.host ∧
    (setupCorsStage env).server.port = env.server.port ∧
    (setupCorsStage env).server.secure = env.server.secure ∧
    (setupCorsStage env).server.ssl = env.server.ssl ∧
    (setupCorsStage env).databases = env.databases ∧
    lookupHeader (setupCorsStage env).server.cors "x-powered-by" =
      some env.app.name ∧
    (∀ k, k ≠ "x-powered-by" →
      lookupHeader (setupCorsStage env).server.cors k =
        lookupHeader env.server.cors k) := by
  refine ⟨rfl, rfl, rfl, rfl, rfl, rfl, ?_, ?_⟩
  · exact lookupHeader_setHeader_self env.server.cors "x-powered-by"
      env.app.name
  · intro k hk
    exact lookupHeader_setHeader_ne env.server.cors "x-powered-by"
      env.app.name k hk

/-- Witness for C6 amended at the sample Environment: the header is written
and an unrelated header is preserved. -/
theorem environment_mutation_amended_witness :
    lookupHeader (setupCorsStage sampleEnv).server.cors "x-powered-by" =
      some sampleEnv.app.name ∧
    lookupHeader (setupCorsStage sampleEnv).server.cors "origin" =
      lookupHeader sampleEnv.server.cors "origin" :=
  ⟨(environment_mutation_amended sampleEnv).2.2.2.2.2.2.1,
   (environment_mutation_amended sampleEnv).2.2.2.2.2.2.2 "origin"
     (by decide)⟩

/-!
Ordering theorems about the startup trace.
-/

/-- C1 counterexample: in the run with the production profile and no
configured database the socket is bound (the service accepts connections)
strictly before route registration, refuting the claim that the transport
is bound only after RegisteringRoutes completes. -/
theorem bind_before_routes_cex :
    Event.registerRoutes ∈ startupTrace "production" 0 true ∧
    Event.bind ∈ startupTrace "production" 0 true ∧
    (startupTrace "production" 0 true).indexOf Event.bind <
      (startupTrace "production" 0 true).indexOf Event.registerRoutes := by
  decide

/-- C1 amended: in every run the stages keep the relative order
SecuringTransportHeaders, then ConfiguringValidation (cors, then
validator), then ConnectingDatastore when databases are configured, then
RegisteringRoutes; but the transport is bound and the service begins
accepting connections before any of the listen-callback stages, hence
before route registration, rather than after it. -/
theorem startupOrder_amended (envName : String) (dbCount : Nat)
    (connectOk : Bool) :
    Event.securityHeaders ∈ startupTrace envName dbCount connectOk ∧
    Event.bind ∈ startupTrace envName dbCount connectOk ∧
    (startupTrace envName dbCount connectOk).indexOf Event.securityHeaders <
      (startupTrace envName dbCount connectOk).indexOf Event.bind ∧
    (startupTrace envName dbCount connectOk).indexOf Event.bind <
      (startupTrace envName dbCount connectOk).indexOf Event.setupCors ∧
    (startupTrace envName dbCount connectOk).indexOf Event.setupCors <
      (startupTrace envName dbCount connectOk).indexOf Event.setupValidator ∧
    (Event.connectAttempt ∈ startupTrace envName dbCount connectOk →
      (startupTrace envName dbCount connectOk).indexOf Event.setupValidator <
        (startupTrace envName dbCount connectOk).indexOf Event.connectAttempt) ∧
    (Event.registerRoutes ∈ startupTrace envName dbCount connectOk →
      (startupTrace envName dbCount connectOk).indexOf Event.bind <
        (startupTrace envName dbCount connectOk).indexOf Event.registerRoutes ∧
      (startupTrace envName dbCount connectOk).indexOf Event.setupValidator <
        (startupTrace envName dbCount connectOk).indexOf Event.registerRoutes ∧
      (Event.connectAttempt ∈ startupTrace envName dbCount connectOk →
        (startupTrace envName dbCount connectOk).indexOf Event.connectAttempt <
          (startupTrace envName dbCount connectOk).indexOf
            Event.registerRoutes)) := by
  by_cases ht : envName = "test" <;> by_cases hd : dbCount = 0 <;>
    cases connectOk <;> simp [startupTrace, appLogOut, ht, hd]

/-- Witness for C1 amended: with one database and a successful connect, the
bind precedes route registration. -/
theorem startupOrder_amended_witness :
    (startupTrace "production" 1 true).indexOf Event.bind <
      (startupTrace "production" 1 true).indexOf Event.registerRoutes :=
  ((startupOrder_amended "production" 1 true).2.2.2.2.2.2 (by decide)).1

/-- C2 counterexample: with one configured database and a failing connect,
the run has already bound the socket (the Serving condition of the spec,
accepting connections) before the connect attempt, refuting the claim that
the Serving state is never reached on a connect failure. -/
theorem connectFailure_serving_cex :
    Event.faultRaised ∈ startupTrace "production" 1 false ∧
    Event.bind ∈ startupTrace "production" 1 false ∧
    (startupTrace "production" 1 false).indexOf Event.bind <
      (startupTrace "production" 1 false).indexOf Event.faultRaised := by
  decide

/-- C2 amended: for every run with at least one configured database whose
connect fails, no route registration occurs and the error is rethrown out
of the catch handler (propagating to the process level) after the connect
attempt; the transport, however, was already bound before the datastore
stage, so the service is accepting connections when the failure happens. -/
theorem connectFailure_amended (envName : String) (dbCount : Nat)
    (hd : dbCount ≠ 0) :
    Event.registerRoutes ∉ startupTrace envName dbCount false ∧
    Event.connectAttempt ∈ startupTrace envName dbCount false ∧
    Event.faultRaised ∈ startupTrace envName dbCount false ∧
    (startupTrace envName dbCount false).indexOf Event.connectAttempt <
      (startupTrace envName dbCount false).indexOf Event.faultRaised ∧
    Event.bind ∈ startupTrace envName dbCount false ∧
    (startupTrace envName dbCount false).indexOf Event.bind <
      (startupTrace envName dbCount false).indexOf Event.connectAttempt := by
  by_cases ht : envName = "test" <;>
    simp [startupTrace, appLogOut, ht, hd]

/-- Witness for C2 amended at the production profile with one database. -/
theorem connectFailure_amended_witness :
    Event.registerRoutes ∉ startupTrace "production" 1 false :=
  (connectFailure_amended "production" 1 (by decide)).1

/-- C7 counterexample: under the test profile the zero-database diagnostic
note is suppressed by _appLog, so it is not emitted in every zero-database
run. -/
theorem zeroDb_note_suppressed_cex :
    Event.logNoDatabase ∉ startupTrace "test" 0 true := by
  decide

/-- C7 amended: in every zero-database run the datastore connect primitive
is never invoked, route registration happens and startup completes without
a fault with the transport bound; the diagnostic note is emitted exactly
when the profile is not test, whose logging suppression swallows it. -/
theorem zeroDatabases_startup_amended (envName : String) (connectOk : Bool) :
    Event.connectAttempt ∉ startupTrace envName 0 connectOk ∧
    Event.setMongooseLocale ∉ startupTrace envName 0 connectOk ∧
    Event.registerRoutes ∈ startupTrace envName 0 connectOk ∧
    Event.faultRaised ∉ startupTrace envName 0 connectOk ∧
    Event.bind ∈ startupTrace envName 0 connectOk ∧
    (envName ≠ "test" →
      Event.logNoDatabase ∈ startupTrace envName 0 connectOk) ∧
    (envName = "test" →
      Event.logNoDatabase ∉ startupTrace envName 0 connectOk) := by
  by_cases ht : envName = "test" <;>
    cases connectOk <;> simp [startupTrace, appLogOut, ht]

/-- Witness for C7 amended at the production profile. -/
theorem zeroDatabases_startup_amended_witness :
    Event.logNoDatabase ∈ startupTrace "production" 0 true :=
  (zeroDatabases_startup_amended "production" true).2.2.2.2.2.1 (by decide)

/-- C8: in every run in which routes get registered, the validator setup
(binding the locale catalog into the validation subsystem) precedes route
registration, in the with-databases branch as in the zero-database
branch. -/
theorem validator_before_routes (envName : String) (dbCount : Nat)
    (connectOk : Bool)
    (h : Event.registerRoutes ∈ startupTrace envName dbCount connectOk) :
    (startupTrace envName dbCount connectOk).indexOf Event.setupValidator <
      (startupTrace envName dbCount connectOk).indexOf Event.registerRoutes := by
  revert h
  by_cases ht : envName = "test" <;> by_cases hd : dbCount = 0 <;>
    cases connectOk <;> simp [startupTrace, appLogOut, ht, hd]

/-- Witness for C8 at the production profile with one database and a
successful connect. -/
theorem validator_before_routes_witness :
    (startupTrace "production" 1 true).indexOf Event.setupValidator <
      (startupTrace "production" 1 true).indexOf Event.registerRoutes :=
  validator_before_routes "production" 1 true (by decide)


/-- C10: in the artist update validation middleware every schema field is
optional: the empty body passes, and for every body the middleware calls
next() exactly when each field that is present satisfies its constraint
(name a string of length at most 50, genres a list of strings with at least
one element, originYear a number between 1500 and the current year);
otherwise it sends one UNPROCESSABLE_ENTITY envelope. -/
theorem updateValidate_optional (currentYear : Int) (body : UpdateBody) :
    updateValidate currentYear
      { name := none, genres := none, originYear := none } =
        ValidateOutcome.next ∧
    (updateValidate currentYear body = ValidateOutcome.next ↔
      ((∀ s, body.name = some s → nameOk s = true) ∧
       (∀ g, body.genres = some g → genresOk g = true) ∧
       (∀ y, body.originYear = some y →
         originYearOk currentYear y = true))) := by
  constructor
  · rfl
  · obtain ⟨n, g, y⟩ := body
    cases n <;> cases g <;> cases y <;> simp [updateValidate]

/-- Witness for C10: a body holding only a valid name and a valid
originYear passes validation and proceeds to the next handler. -/
theorem updateValidate_optional_witness :
    updateValidate 2026
      { name := some "Muse", genres := none, originYear := some 1999 } =
        ValidateOutcome.next :=
  (updateValidate_optional 2026
      { name := some "Muse", genres := none, originYear := some 1999 }).2.mpr
    ⟨fun s hs => by injection hs with h; subst h; decide,
     fun g hg => Option.noConfusion hg,
     fun y hy => by injection hy with h; subst h; decide⟩
